import Mathlib

/-!
Shallow embedding of the `sk_model` pipeline (files `plot_singlediode.py`
and `pv_base.py`).

Numeric values are modelled as rationals.  The external pvlib library
functions (`pvsystem.calcparams_desoto` and `pvsystem.singlediode`) are out
of scope for the repository and are taken as function parameters; the
embedding records the arguments they are invoked with in a call trace.
Python exceptions are modelled with `Except`: a raised error propagates
through `bind` exactly as an uncaught Python exception propagates through
the call stack.
-/

namespace SkModel

/-- A JSON-ish field value as delivered by the CEC module catalog: either a
numeric value or a string.  The source treats module records as untyped
dictionaries, so both kinds can appear in any field. -/
inductive Value where
  | num (q : ℚ)
  | str (s : String)
deriving DecidableEq, Repr

/-- String rendering of a field value, modelling Python `str(...)`. -/
def Value.toStr : Value → String
  | .num q => toString q
  | .str s => s

/-- A raw module record from the catalog: an association list from field
names to values, modelling the Python dict. -/
def RawModule := List (String × Value)
deriving DecidableEq, Repr

/-- Dictionary lookup, modelling `use_module[key]` up to the thrown
KeyError: `none` models a raised `KeyError(key)`. -/
def RawModule.lookup (m : RawModule) (k : String) : Option Value :=
  (List.find? (fun p => p.1 == k) m).map (fun p => p.2)

/-- The parameter dictionary built by `extract_module_params`, in insertion
order. -/
def Params := List (String × Value)
deriving DecidableEq, Repr

/-- Lookup in the extracted parameter dictionary (`parameters[key]` in the
source); all callers query keys that are present by construction, so the
default is never observable there. -/
def getField (ps : Params) (k : String) : Value :=
  ((List.find? (fun p => p.1 == k) ps).map (fun p => p.2)).getD (Value.str "")

/-- The 22 field names copied by `extract_module_params`, in the order the
dict literal in `plot_singlediode.py` lines 132-157 evaluates them. -/
def moduleFieldKeys : List String :=
  ["Name", "BIPV", "Date", "T_NOCT", "A_c", "N_s", "I_sc_ref", "V_oc_ref",
   "I_mp_ref", "V_mp_ref", "beta_oc", "alpha_sc", "a_ref", "I_L_ref",
   "I_o_ref", "R_s", "R_sh_ref", "Adjust", "gamma_r", "Version", "PTC",
   "Technology"]

/-- Error raised by the resolver: a Python `KeyError` naming the missing
dict key. -/
inductive ResolveError where
  | missingField (name : String)
deriving DecidableEq, Repr

/-- Copy the fields named in `ks`, in order, from the raw record; the first
missing key raises `KeyError(key)`, modelled as `missingField`.  This is the
evaluation order of the dict literal in `extract_module_params`. -/
def extractFields (use_module : RawModule) : List String → Except ResolveError Params
  | [] => .ok []
  | k :: ks =>
    match use_module.lookup k with
    | none => .error (.missingField k)
    | some v => (extractFields use_module ks).map (fun rest => (k, v) :: rest)

/-- Embedding of `PVPerfTest.extract_module_params` (lines 128-158): a pure
field-by-field copy of the 22 named keys into a fresh dict.  No value is
inspected or converted; the only possible failure is a `KeyError` from a
missing key. -/
def extract_module_params (use_module : RawModule) : Except ResolveError Params :=
  extractFields use_module moduleFieldKeys

/-- The first key of `ks` missing from `m` (the one whose lookup raises
first), if any. -/
def firstMissingKey (m : RawModule) (ks : List String) : Option String :=
  List.find? (fun k => (m.lookup k).isNone) ks

/-- An operating condition: effective irradiance (W/m²) and cell
temperature (°C), one row of the `conditions` DataFrame. -/
structure Condition where
  Geff : ℚ
  Tcell : ℚ
deriving DecidableEq, Repr

/-- The five translated diode parameters returned by
`pvsystem.calcparams_desoto` for one operating condition. -/
structure DiodeParams where
  IL : ℚ
  I0 : ℚ
  Rs : ℚ
  Rsh : ℚ
  nNsVth : ℚ
deriving DecidableEq, Repr

/-- One row of the `curve_info` result of `pvsystem.singlediode`: solved
outputs at one operating condition, plus the sampled curve arrays. -/
structure IVCurvePoint where
  i_sc : ℚ
  v_oc : ℚ
  i_mp : ℚ
  v_mp : ℚ
  p_mp : ℚ
  v : List ℚ
  i : List ℚ
deriving DecidableEq, Repr

/-- Error raised by the scorer on an empty curve sequence: `p_mp[1][0]` in
`calcuate_errors` raises `KeyError(0)` when the `p_mp` column is empty. -/
inductive ScoreError where
  | emptyCurve
deriving DecidableEq, Repr

/-- Embedding of `PVPerfTest.calcuate_errors` (lines 172-189): take the
first row's maximum power `mpp = p_mp[1][0]`, compute
`diff_percent = (1 - mpp / use_watt) * 100` and return it.  On an empty
curve sequence the first-row access raises, modelled as `emptyCurve`.
The `parameters` argument of the source is used only for printing and is
dropped here. -/
def calcuate_errors (curve_info : List IVCurvePoint) (use_watt : ℚ) :
    Except ScoreError ℚ :=
  match curve_info with
  | [] => .error .emptyCurve
  | pt :: _ =>
    let mpp := pt.p_mp
    let diff := mpp / use_watt
    let diff_percent := (1 - diff) * 100
    .ok diff_percent

/-- The `meta` object of a catalog response. -/
structure CatalogMeta where
  total_count : ℕ
deriving DecidableEq, Repr

/-- A JSON response of the PV Free catalog endpoint: `meta.total_count`
matching records in total, of which at most the request `limit` are
delivered in `objects`. -/
structure CatalogResponse where
  catMeta : CatalogMeta
  objects : List RawModule
deriving DecidableEq, Repr

/-- How `get_cecmodules` can stop short of returning a module list:
`emptyResult` models the `exit(0)` taken after printing the message when
`total_count == 0`; `indexError` models the `IndexError` raised by
`objects[i]` in the listing loop at the first out-of-range index;
`missingKey` models the `KeyError` raised by the subsequent `['Name']`
access on a record lacking that key; `typeError` models the `TypeError`
raised by the string concatenation when the `Name` value is not a
string. -/
inductive FetchError where
  | emptyResult (msg : String)
  | indexError (idx : ℕ)
  | missingKey (k : String)
  | typeError (msg : String)
deriving DecidableEq, Repr

/-- Whether a record carries a string-valued `Name` field, so that the
listing loop's `objects[i]['Name']` access and string concatenation
succeed on it. -/
def hasStrName (m : RawModule) : Bool :=
  match m.lookup "Name" with
  | some (Value.str _) => true
  | _ => false

/-- The listing loop of `get_cecmodules` (lines 108-109):
`for i in range(total_modules): print("({}) ".format(i+1) +
module_used['objects'][i]['Name'])`.  The first argument pair is the
current index `i` and the number of iterations still to run.  Each
iteration reads `objects[i]` (an out-of-range index raises `IndexError`),
then `['Name']` on that record (a missing key raises `KeyError('Name')`),
then concatenates it to a string (a non-string value raises
`TypeError`). -/
def listing_loop (objects : List RawModule) : ℕ → ℕ → Except FetchError Unit
  | _, 0 => .ok ()
  | i, n + 1 =>
    match objects[i]? with
    | none => .error (.indexError i)
    | some obj =>
      match obj.lookup "Name" with
      | none => .error (.missingKey "Name")
      | some (Value.str _) => listing_loop objects (i + 1) n
      | some (Value.num _) =>
          .error (.typeError "can only concatenate str (not float) to str")

/-- Embedding of `get_cecmodules` (lines 79-114) from the point where the
HTTP response has been decoded (the network call itself is external).  When
`total_count` is zero the function prints a report and calls `exit(0)`,
modelled as `emptyResult` carrying the printed message; otherwise the
listing loop prints `objects[i]['Name']` for `i < total_count` (raising on
an out-of-range index, a missing `Name` key, or a non-string `Name`
value), and then the `objects` list is returned. -/
def get_cecmodules (module_used : CatalogResponse) (limits : ℕ) :
    Except FetchError (List RawModule) :=
  let _ := limits
  let total_modules := module_used.catMeta.total_count
  if total_modules = 0 then
    .error (.emptyResult "No module found from searching criteria .... ")
  else
    match listing_loop module_used.objects 0 total_modules with
    | .error e => .error e
    | .ok _ => .ok module_used.objects

/-- One invocation of an external pvlib function, with the arguments the
script passes: either `pvsystem.calcparams_desoto` applied to one operating
condition, or `pvsystem.singlediode` applied to one translated parameter
set. -/
inductive LibCall where
  | desotoCall (alpha_sc a_ref I_L_ref I_o_ref R_sh_ref R_s : Value)
      (egRefArg dEgdTArg : ℚ) (c : Condition)
  | singlediodeCall (pnts : ℕ) (dp : DiodeParams)
deriving DecidableEq, Repr

/-- Band-gap energy reference passed as `EgRef=1.121` (line 209). -/
def EgRef : ℚ := 1121 / 1000

/-- Band-gap temperature coefficient passed as `dEgdT=-0.0002677`
(line 210). -/
def dEgdT : ℚ := -2677 / 10000000

/-- Number of IV-curve sample points passed as `ivcurve_pnts=100`
(line 220). -/
def ivcurve_pnts : ℕ := 100

/-- The external De Soto translation `pvsystem.calcparams_desoto`,
abstracted: it receives the six module parameter values (untyped, straight
from the dict), the two band-gap constants and one operating condition, and
produces that condition's five diode parameters. -/
def DesotoFn : Type :=
  Value → Value → Value → Value → Value → Value → ℚ → ℚ → Condition → DiodeParams

/-- The external single-diode solver `pvsystem.singlediode`, abstracted: it
receives the number of curve sample points and one translated parameter set
and produces that condition's solved curve row. -/
def SolveFn : Type := ℕ → DiodeParams → IVCurvePoint

/-- The translation of one condition as `calculate_result` performs it:
the six parameters are read from the extracted dict and the two band-gap
constants are the literals of lines 209-210. -/
def desotoStep (desoto : DesotoFn) (parameters : Params) (c : Condition) : DiodeParams :=
  desoto (getField parameters "alpha_sc") (getField parameters "a_ref")
    (getField parameters "I_L_ref") (getField parameters "I_o_ref")
    (getField parameters "R_sh_ref") (getField parameters "R_s") EgRef dEgdT c

/-- The trace entry recording the translation call for one condition. -/
def desotoCallOf (parameters : Params) (c : Condition) : LibCall :=
  .desotoCall (getField parameters "alpha_sc") (getField parameters "a_ref")
    (getField parameters "I_L_ref") (getField parameters "I_o_ref")
    (getField parameters "R_sh_ref") (getField parameters "R_s") EgRef dEgdT c

/-- Embedding of `PVPerfTest.calculate_result` (lines 191-258), plotting
disabled (`plot_graph=False`, the batch driver's call).  It resolves the
module record (a missing field propagates), then translates every condition
with `calcparams_desoto` under the fixed constants `EgRef`/`dEgdT`, then
solves every translated set with `singlediode` at `ivcurve_pnts` sample
points.  The source makes the two library calls once each, vectorized over
the condition column; here the same computation is written per condition
and every per-condition invocation is recorded in a trace. -/
def calculate_result (desoto : DesotoFn) (solve : SolveFn) (input_module : RawModule)
    (irrad_temps : List Condition) :
    Except ResolveError (List LibCall × List IVCurvePoint × Params) := do
  let parameters ← extract_module_params input_module
  let dps := irrad_temps.map (fun c => (c, desotoStep desoto parameters c))
  let callTrace := dps.map (fun cd => desotoCallOf parameters cd.1)
      ++ dps.map (fun cd => LibCall.singlediodeCall ivcurve_pnts cd.2)
  let curve_info := dps.map (fun cd => solve ivcurve_pnts cd.2)
  pure (callTrace, curve_info, parameters)

/-- Lower STC filter bound, `self.STC_Low = 219` (line 262). -/
def STC_Low : ℚ := 219

/-- Upper STC filter bound, `self.STC_Hi = 221` (line 263). -/
def STC_Hi : ℚ := 221

/-- The single reference wattage of the whole batch,
`self.use_watt = (self.STC_Hi + self.STC_Low) / 2` (line 264). -/
def use_watt : ℚ := (STC_Hi + STC_Low) / 2

/-- The operating conditions of `run_test` (lines 271-273); index 0 is the
(1000 W/m², 55 °C) case. -/
def cases : List Condition :=
  [⟨1000, 55⟩, ⟨800, 55⟩, ⟨600, 55⟩, ⟨400, 25⟩, ⟨400, 40⟩, ⟨400, 55⟩]

/-- Request limit `max_returns = 200` (line 275). -/
def max_returns : ℕ := 200

/-- Any error a batch run can raise: a catalog abort, a resolver KeyError,
or the scorer's empty-curve KeyError. -/
inductive RunError where
  | fetch (e : FetchError)
  | resolve (e : ResolveError)
  | score (e : ScoreError)
deriving DecidableEq, Repr

/-- The body of the batch loop (lines 280-283) for one module: evaluate the
module over `cases`, score the resulting curve against the shared
`use_watt`, and pair the deviation with `str(parameters['Name'])`.  There
is no exception handling here, as in the source. -/
def process_module (desoto : DesotoFn) (solve : SolveFn) (m : RawModule) :
    Except RunError (String × ℚ) := do
  let res ← (calculate_result desoto solve m cases).mapError RunError.resolve
  let calculated_errs ← (calcuate_errors res.2.1 use_watt).mapError RunError.score
  let name := (getField res.2.2 "Name").toStr
  pure (name, calculated_errs)

/-- The batch loop of `run_test` (lines 278-284): process the modules in
order, accumulating `(name, error-percentage)` records.  The loop contains
no `try`/`except`, so the first exception aborts the remainder of the
batch, which `Except`'s `bind` models. -/
def run_loop (desoto : DesotoFn) (solve : SolveFn) :
    List RawModule → Except RunError (List (String × ℚ))
  | [] => .ok []
  | m :: ms => do
    let r ← process_module desoto solve m
    let rest ← run_loop desoto solve ms
    pure (r :: rest)

/-- Embedding of `PVPerfTest.run_test` (lines 260-289) from the decoded
catalog response on: fetch the module list via `get_cecmodules` with
`max_returns`, then run the batch loop.  The final printing pass reads the
accumulated `device_errors` list, which is the value returned here. -/
def run_test (desoto : DesotoFn) (solve : SolveFn) (resp : CatalogResponse) :
    Except RunError (List (String × ℚ)) := do
  let cec_modules ← (get_cecmodules resp max_returns).mapError RunError.fetch
  run_loop desoto solve cec_modules

/-- Embedding of the `TestStatus` enum of `pv_base.py`. -/
inductive TestStatus where
  | PASSED
  | FAILED
  | SKIPPED
deriving DecidableEq, Repr

/-- How a `run_test` invocation can end, as seen by `PVBase.main`:
normal completion, an `AssertionError`, or any other exception. -/
inductive RunOutcome where
  | finished (records : List (String × ℚ))
  | assertionError
  | otherError (e : RunError)
deriving DecidableEq, Repr

set_option linter.unusedVariables false in
/-- Embedding of `PVBase.main` (pv_base.py lines 24-46), parameterized by
the outcome of `self.run_test()`.  Only `AssertionError` is caught; any
other exception propagates out of `main`, modelled as `Except.error`.  The
returned status is the value `main` hands to `sys.exit`: line 45 re-assigns
`exit_code = TestStatus.PASSED` unconditionally, discarding the status
computed from `success`. -/
def PVBase_main (outcome : RunOutcome) : Except RunError TestStatus :=
  match outcome with
  | .otherError e => .error e
  | o =>
    let success : TestStatus :=
      match o with
      | .finished _ => .PASSED
      | _ => .FAILED
    let exit_code : TestStatus := if success = .PASSED then .PASSED else .FAILED
    let exit_code : TestStatus := .PASSED
    .ok exit_code

/-- Replace the value stored under the `STC` key of a raw record, leaving
every other entry unchanged.  Used to state that the pipeline never reads a
module's own datasheet STC rating. -/
def setSTCValue (m : RawModule) (v : Value) : RawModule :=
  m.map (fun p => if p.1 == "STC" then (p.1, v) else p)

/-- The property of a recorded library call that the claimed constants were
passed: `EgRef = 1.121`, `dEgdT = -2.677e-4` for the De Soto translation,
`ivcurve_pnts = 100` for the single-diode solve. -/
def usesFixedConstants : LibCall → Prop
  | .desotoCall _ _ _ _ _ _ egRefArg dEgdTArg _ =>
      egRefArg = 1121 / 1000 ∧ dEgdTArg = -2677 / 10000000
  | .singlediodeCall pnts _ => pnts = 100

/-! Concrete fixtures: a constant stand-in for the two external pvlib
functions, and small catalog records, used to instantiate the theorems
below on closed inputs. -/

/-- A concrete De Soto translation: ignores its arguments. -/
def desoto0 : DesotoFn := fun _ _ _ _ _ _ _ _ _ => ⟨6, 1, 1, 300, 2⟩

/-- A concrete single-diode solver: ignores its arguments. -/
def solve0 : SolveFn := fun _ _ => ⟨6, 36, 5, 30, 150, [], []⟩

/-- A complete raw catalog record with the given name and `a_ref` value;
it also carries the datasheet `STC` rating field, which the resolver never
copies. -/
def rawModuleNamed (nm : String) (aref : Value) : RawModule :=
  [("Name", .str nm), ("BIPV", .str "N"), ("Date", .str "1/1/2019"),
   ("T_NOCT", .num 45), ("A_c", .num (16 / 10)), ("N_s", .num 60),
   ("I_sc_ref", .num (52 / 10)), ("V_oc_ref", .num 36),
   ("I_mp_ref", .num (49 / 10)), ("V_mp_ref", .num 30),
   ("beta_oc", .num (-11 / 100)), ("alpha_sc", .num (3 / 1000)),
   ("a_ref", aref), ("I_L_ref", .num (52 / 10)),
   ("I_o_ref", .num (1 / 1000000000)), ("R_s", .num (3 / 10)),
   ("R_sh_ref", .num 300), ("Adjust", .num 9), ("gamma_r", .num (-4 / 10)),
   ("Version", .str "SAM 2018"), ("PTC", .num 200),
   ("Technology", .str "Mono-c-Si"), ("STC", .num 220)]

/-- A well-formed module record. -/
def module1 : RawModule := rawModuleNamed "Module_A" (Value.num (16 / 10))

/-- A module record whose `a_ref` key is missing entirely. -/
def module2 : RawModule :=
  (rawModuleNamed "Module_B" (Value.num (16 / 10))).filter (fun p => !(p.1 == "a_ref"))

/-- Another well-formed module record. -/
def module3 : RawModule := rawModuleNamed "Module_C" (Value.num (17 / 10))

/-- A module record whose `a_ref` value is present but not numeric. -/
def badValueRaw : RawModule := rawModuleNamed "Module_D" (Value.str "not_a_number")

/-- The parameter dict the resolver produces from `module1`. -/
def goodParams : Params :=
  moduleFieldKeys.map (fun k => (k, (module1.lookup k).getD (Value.str "")))

/-- A three-module catalog response whose middle module is malformed. -/
def resp3 : CatalogResponse := ⟨⟨3⟩, [module1, module2, module3]⟩

/-- A response claiming three matches while only two objects were
delivered (request limit 2). -/
def respOver : CatalogResponse := ⟨⟨3⟩, [module1, module2]⟩

/-- A response whose single match fits within the request limit. -/
def respOk : CatalogResponse := ⟨⟨1⟩, [module1]⟩

/-- A concrete curve row. -/
def ivPoint0 : IVCurvePoint := ⟨6, 36, 5, 30, 150, [], []⟩

/-- Another concrete curve row, sharing nothing with `ivPoint0`. -/
def ivPoint1 : IVCurvePoint := ⟨4, 33, 3, 28, 84, [], []⟩

/-- The per-condition pairs `calculate_result` builds for `module1` under
the concrete external functions. -/
def dps0 : List (Condition × DiodeParams) :=
  cases.map (fun c => (c, desotoStep desoto0 goodParams c))

/-- The call trace `calculate_result` records for `module1` under the
concrete external functions. -/
def trace0 : List LibCall :=
  dps0.map (fun cd => desotoCallOf goodParams cd.1)
    ++ dps0.map (fun cd => LibCall.singlediodeCall ivcurve_pnts cd.2)

/-- The curve list `calculate_result` returns for `module1` under the
concrete external functions. -/
def curve0 : List IVCurvePoint := dps0.map (fun cd => solve0 ivcurve_pnts cd.2)

/-! Helper lemmas. -/

/-- Characterization of the field-copy loop over an arbitrary key list:
when no key is missing it returns the renaming copy, and otherwise it
fails naming the first missing key. -/
theorem extractFields_characterization (raw : RawModule) (ks : List String) :
    (List.find? (fun k => (raw.lookup k).isNone) ks = none →
      extractFields raw ks =
        .ok (ks.map (fun k => (k, (raw.lookup k).getD (Value.str ""))))) ∧
    (∀ k0, List.find? (fun k => (raw.lookup k).isNone) ks = some k0 →
      extractFields raw ks = .error (.missingField k0)) := by
  induction ks with
  | nil =>
    refine ⟨fun _ => rfl, fun k0 h => ?_⟩
    simp [List.find?] at h
  | cons k t ih =>
    cases hv : raw.lookup k with
    | none =>
      refine ⟨fun h => ?_, fun k0 h => ?_⟩
      · rw [List.find?_cons_of_pos _ (by simp [hv])] at h
        simp at h
      · rw [List.find?_cons_of_pos _ (by simp [hv])] at h
        injection h with h
        subst h
        simp [extractFields, hv]
    | some v =>
      refine ⟨fun h => ?_, fun k0 h => ?_⟩
      · rw [List.find?_cons_of_neg _ (by simp [hv])] at h
        simp [extractFields, hv, ih.1 h, Except.map]
      · rw [List.find?_cons_of_neg _ (by simp [hv])] at h
        simp [extractFields, hv, ih.2 k0 h, Except.map]

/-- Rewriting the `STC` entry of a record does not change the lookup of any
other key. -/
theorem lookup_setSTCValue (m : RawModule) (v : Value) (k : String) (hk : k ≠ "STC") :
    (setSTCValue m v).lookup k = m.lookup k := by
  induction m with
  | nil => rfl
  | cons p t ih =>
    show RawModule.lookup ((if p.1 == "STC" then (p.1, v) else p) :: setSTCValue t v) k = _
    by_cases hpk : p.1 = k
    · have hsc : ¬(p.1 = "STC") := by rw [hpk]; exact hk
      rw [if_neg (by simpa using hsc)]
      show (List.find? _ (p :: setSTCValue t v)).map _ = (List.find? _ (p :: t)).map _
      rw [List.find?_cons_of_pos _ (by simpa using hpk),
        List.find?_cons_of_pos _ (by simpa using hpk)]
    · have hk1 : ((p.1, v).1 == k) = false := by simpa using hpk
      have hk2 : (p.1 == k) = false := by simpa using hpk
      by_cases hsc : p.1 = "STC"
      · rw [if_pos (by simpa using hsc)]
        show (List.find? _ ((p.1, v) :: setSTCValue t v)).map _ = (List.find? _ (p :: t)).map _
        rw [List.find?_cons_of_neg _ (by simp [hk1]), List.find?_cons_of_neg _ (by simp [hk2])]
        exact ih
      · rw [if_neg (by simpa using hsc)]
        show (List.find? _ (p :: setSTCValue t v)).map _ = (List.find? _ (p :: t)).map _
        rw [List.find?_cons_of_neg _ (by simp [hk2]), List.find?_cons_of_neg _ (by simp [hk2])]
        exact ih

/-- Rewriting the `STC` entry does not change the copy loop over keys that
never query `STC`. -/
theorem extractFields_setSTC (raw : RawModule) (v : Value) (ks : List String)
    (hks : ∀ k ∈ ks, k ≠ "STC") :
    extractFields (setSTCValue raw v) ks = extractFields raw ks := by
  induction ks with
  | nil => rfl
  | cons k t ih =>
    simp only [extractFields,
      lookup_setSTCValue raw v k (hks k (List.mem_cons_self _ _)),
      ih (fun k2 h2 => hks k2 (List.mem_cons_of_mem _ h2))]

/-- The resolver never reads the datasheet `STC` field. -/
theorem extract_module_params_setSTC (raw : RawModule) (v : Value) :
    extract_module_params (setSTCValue raw v) = extract_module_params raw :=
  extractFields_setSTC raw v moduleFieldKeys (by decide)

/-- The evaluator never reads the datasheet `STC` field. -/
theorem calculate_result_setSTC (desoto : DesotoFn) (solve : SolveFn)
    (raw : RawModule) (v : Value) (conds : List Condition) :
    calculate_result desoto solve (setSTCValue raw v) conds =
      calculate_result desoto solve raw conds := by
  unfold calculate_result
  rw [extract_module_params_setSTC]

/-! Claim theorems. -/

/-- C1: for every non-empty curve sequence and reference wattage `W`,
`calcuate_errors` returns the signed percentage deviation
`(1 - p_mp[0] / W) * 100`, where `p_mp[0]` is the maximum-power value of
the first operating condition in the sequence. -/
theorem calcuate_errors_formula (pt : IVCurvePoint) (rest : List IVCurvePoint) (W : ℚ) :
    calcuate_errors (pt :: rest) W = .ok ((1 - pt.p_mp / W) * 100) := rfl

/-- C5: for every reference wattage, `calcuate_errors` on an empty curve
sequence fails with the empty-curve error, and the scorer never validates
which condition produced the first row: its result depends only on the
first element of the curve sequence. -/
theorem calcuate_errors_empty_and_first_only :
    (∀ W : ℚ, calcuate_errors [] W = .error .emptyCurve) ∧
    (∀ (xs ys : List IVCurvePoint) (W : ℚ), xs.head? = ys.head? →
      calcuate_errors xs W = calcuate_errors ys W) := by
  refine ⟨fun W => rfl, fun xs ys W h => ?_⟩
  cases xs with
  | nil =>
    cases ys with
    | nil => rfl
    | cons b bs => simp at h
  | cons a as =>
    cases ys with
    | nil => simp at h
    | cons b bs =>
      simp at h
      subst h
      rfl

/-- Witness for C5 at concrete inputs. -/
theorem calcuate_errors_empty_witness :
    calcuate_errors [] 220 = .error .emptyCurve ∧
    calcuate_errors [ivPoint0] 220 = calcuate_errors [ivPoint0, ivPoint1] 220 :=
  ⟨calcuate_errors_empty_and_first_only.1 220,
   calcuate_errors_empty_and_first_only.2 [ivPoint0] [ivPoint0, ivPoint1] 220 rfl⟩

/-- C4 counterexample: the resolver accepts a record whose `a_ref` value is
a non-numeric string and returns the plain copy — no `MalformedValueError`
is ever signalled, refuting the malformed-value clause of the claim. -/
theorem extract_accepts_non_numeric :
    badValueRaw.lookup "a_ref" = some (Value.str "not_a_number") ∧
    extract_module_params badValueRaw =
      .ok (moduleFieldKeys.map (fun k => (k, (badValueRaw.lookup k).getD (Value.str "")))) :=
  ⟨rfl, rfl⟩

/-- C4 (amended): the resolver is a pure field-renaming copy with no unit
conversion and no validation of values; when every required key is present
it returns the copy, and when a key is missing it fails with an error
naming the first missing field.  Non-numeric values are copied through
unchanged. -/
theorem extract_module_params_pure_copy (raw : RawModule) :
    (firstMissingKey raw moduleFieldKeys = none →
      extract_module_params raw =
        .ok (moduleFieldKeys.map (fun k => (k, (raw.lookup k).getD (Value.str ""))))) ∧
    (∀ k, firstMissingKey raw moduleFieldKeys = some k →
      extract_module_params raw = .error (.missingField k)) :=
  extractFields_characterization raw moduleFieldKeys

/-- Witness for C4 at concrete inputs: a complete record is copied, and a
record without `a_ref` fails naming that field. -/
theorem extract_module_params_pure_copy_witness :
    extract_module_params module1 = .ok goodParams ∧
    extract_module_params module2 = .error (.missingField "a_ref") :=
  ⟨(extract_module_params_pure_copy module1).1 rfl,
   (extract_module_params_pure_copy module2).2 "a_ref" rfl⟩

/-- C6: a catalog response whose `meta.total_count` is zero aborts the
batch run with an explicit report (the printed message before `exit(0)`),
rather than continuing with an empty module list. -/
theorem get_cecmodules_empty_abort (resp : CatalogResponse) (limits : ℕ)
    (h : resp.catMeta.total_count = 0) :
    get_cecmodules resp limits =
      .error (.emptyResult "No module found from searching criteria .... ") := by
  simp [get_cecmodules, h]

/-- Witness for C6 at a concrete empty response. -/
theorem get_cecmodules_empty_witness :
    get_cecmodules (⟨⟨0⟩, []⟩ : CatalogResponse) 200 =
      .error (.emptyResult "No module found from searching criteria .... ") :=
  get_cecmodules_empty_abort ⟨⟨0⟩, []⟩ 200 rfl

/-- C8: the exit status `PVBase.main` hands to `sys.exit` is the `PASSED`
value both when `run_test` completes normally and when it raises an
`AssertionError`: line 45 overwrites the computed status unconditionally,
so the harness always reports success. -/
theorem main_reports_passed_regardless :
    (∀ records : List (String × ℚ), PVBase_main (.finished records) = .ok .PASSED) ∧
    PVBase_main .assertionError = .ok .PASSED :=
  ⟨fun _ => rfl, rfl⟩

/-- C2: for every resolvable module record and every non-empty list of
operating conditions, the evaluator succeeds and returns exactly one
`IVCurvePoint` per input condition, in input order: the curve list is the
map of the per-condition translate-and-solve step over the condition list,
its length equals the number of conditions, and its `i`-th entry is
obtained from the `i`-th condition. -/
theorem calculate_result_one_per_condition (desoto : DesotoFn) (solve : SolveFn)
    (input_module : RawModule) (conds : List Condition) (ps : Params)
    (hok : extract_module_params input_module = .ok ps) (_hne : conds ≠ []) :
    calculate_result desoto solve input_module conds =
      .ok (conds.map (desotoCallOf ps)
            ++ conds.map (fun c => LibCall.singlediodeCall ivcurve_pnts (desotoStep desoto ps c)),
          conds.map (fun c => solve ivcurve_pnts (desotoStep desoto ps c)), ps) ∧
    (conds.map (fun c => solve ivcurve_pnts (desotoStep desoto ps c))).length = conds.length ∧
    ∀ i : ℕ,
      (conds.map (fun c => solve ivcurve_pnts (desotoStep desoto ps c)))[i]? =
        (conds[i]?).map (fun c => solve ivcurve_pnts (desotoStep desoto ps c)) := by
  refine ⟨?_, by simp, fun i => by simp [List.getElem?_map]⟩
  have h1 : calculate_result desoto solve input_module conds =
      .ok ((conds.map (fun c => (c, desotoStep desoto ps c))).map (fun cd => desotoCallOf ps cd.1)
            ++ (conds.map (fun c => (c, desotoStep desoto ps c))).map
                (fun cd => LibCall.singlediodeCall ivcurve_pnts cd.2),
          (conds.map (fun c => (c, desotoStep desoto ps c))).map
            (fun cd => solve ivcurve_pnts cd.2), ps) := by
    unfold calculate_result
    rw [hok]
    rfl
  rw [List.map_map, List.map_map, List.map_map] at h1
  exact h1

/-- Witness for C2 at concrete inputs. -/
theorem calculate_result_one_per_condition_witness :
    calculate_result desoto0 solve0 module1 cases =
      .ok (cases.map (desotoCallOf goodParams)
            ++ cases.map (fun c => LibCall.singlediodeCall ivcurve_pnts (desotoStep desoto0 goodParams c)),
          cases.map (fun c => solve0 ivcurve_pnts (desotoStep desoto0 goodParams c)), goodParams) :=
  (calculate_result_one_per_condition desoto0 solve0 module1 cases goodParams rfl (by decide)).1

/-- C3 counterexample: in a three-module batch whose middle module lacks
the `a_ref` field, the batch driver does not catch the per-module error:
the whole run aborts with that module's `KeyError` and no
`(name, deviation)` list is produced — in particular the two well-formed
modules are not reported. -/
theorem run_test_aborts_counterexample :
    run_test desoto0 solve0 resp3 = .error (.resolve (.missingField "a_ref")) := rfl

/-- C3 (amended): the batch loop contains no error handling, so a
per-module error is not caught, logged, or skipped: whenever the
processing of any module in the batch raises an error, the whole batch
aborts with an error and no `ErrorRecord` sequence is produced. -/
theorem run_loop_error_aborts (desoto : DesotoFn) (solve : SolveFn)
    (ms : List RawModule) (m : RawModule) (hm : m ∈ ms) (e : RunError)
    (he : process_module desoto solve m = .error e) :
    ∃ e2, run_loop desoto solve ms = .error e2 := by
  induction ms with
  | nil => cases hm
  | cons a t ih =>
    cases hp : process_module desoto solve a with
    | error e3 =>
      refine ⟨e3, ?_⟩
      show Except.bind (process_module desoto solve a) _ = _
      rw [hp]
      rfl
    | ok r =>
      rcases List.mem_cons.1 hm with rfl | hmt
      · rw [hp] at he
        cases he
      · rcases ih hmt with ⟨e2, h2⟩
        refine ⟨e2, ?_⟩
        show Except.bind (process_module desoto solve a) _ = _
        rw [hp]
        show Except.bind (run_loop desoto solve t) _ = _
        rw [h2]
        rfl

/-- Witness for the amended C3 at the concrete three-module batch. -/
theorem run_loop_error_aborts_witness :
    ∃ e2, run_loop desoto0 solve0 [module1, module2, module3] = .error e2 :=
  run_loop_error_aborts desoto0 solve0 [module1, module2, module3] module2
    (List.mem_cons_of_mem _ (List.mem_cons_self _ _))
    (RunError.resolve (ResolveError.missingField "a_ref")) rfl

/-- C7: whenever the evaluator succeeds, every recorded external call uses
the fixed constants — band-gap energy reference `1.121`, band-gap
temperature coefficient `-2.677e-4` for the De Soto translation, and `100`
curve sample points for the single-diode solve — and for every operating
condition both a translation call and a solve call with those constants
are present in the trace. -/
theorem calculate_result_constants (desoto : DesotoFn) (solve : SolveFn)
    (input_module : RawModule) (conds : List Condition)
    (callTrace : List LibCall) (curve_info : List IVCurvePoint) (ps : Params)
    (hok : calculate_result desoto solve input_module conds = .ok (callTrace, curve_info, ps)) :
    (∀ call ∈ callTrace, usesFixedConstants call) ∧
    (∀ c ∈ conds,
      LibCall.desotoCall (getField ps "alpha_sc") (getField ps "a_ref")
        (getField ps "I_L_ref") (getField ps "I_o_ref") (getField ps "R_sh_ref")
        (getField ps "R_s") (1121 / 1000) (-2677 / 10000000) c ∈ callTrace ∧
      LibCall.singlediodeCall 100 (desotoStep desoto ps c) ∈ callTrace) := by
  cases hext : extract_module_params input_module with
  | error e =>
    unfold calculate_result at hok
    rw [hext] at hok
    cases hok
  | ok ps2 =>
    unfold calculate_result at hok
    rw [hext] at hok
    have hok2 : ((conds.map (fun c => (c, desotoStep desoto ps2 c))).map
          (fun cd => desotoCallOf ps2 cd.1)
        ++ (conds.map (fun c => (c, desotoStep desoto ps2 c))).map
            (fun cd => LibCall.singlediodeCall ivcurve_pnts cd.2),
        (conds.map (fun c => (c, desotoStep desoto ps2 c))).map
          (fun cd => solve ivcurve_pnts cd.2), ps2) =
        (callTrace, curve_info, ps) := Except.ok.inj hok
    simp only [Prod.mk.injEq] at hok2
    obtain ⟨rfl, rfl, rfl⟩ := hok2
    constructor
    · intro call hc
      rcases List.mem_append.1 hc with h | h
      · rcases List.mem_map.1 h with ⟨cd, _, rfl⟩
        exact ⟨rfl, rfl⟩
      · rcases List.mem_map.1 h with ⟨cd, _, rfl⟩
        exact rfl
    · intro c hc
      refine ⟨List.mem_append_left _ ?_, List.mem_append_right _ ?_⟩
      · exact List.mem_map_of_mem _ (List.mem_map_of_mem _ hc)
      · exact List.mem_map_of_mem _ (List.mem_map_of_mem _ hc)

/-- Witness for C7 at concrete inputs. -/
theorem calculate_result_constants_witness :
    (∀ call ∈ trace0, usesFixedConstants call) ∧
    (∀ c ∈ cases,
      LibCall.desotoCall (getField goodParams "alpha_sc") (getField goodParams "a_ref")
        (getField goodParams "I_L_ref") (getField goodParams "I_o_ref")
        (getField goodParams "R_sh_ref") (getField goodParams "R_s")
        (1121 / 1000) (-2677 / 10000000) c ∈ trace0 ∧
      LibCall.singlediodeCall 100 (desotoStep desoto0 goodParams c) ∈ trace0) :=
  calculate_result_constants desoto0 solve0 module1 cases trace0 curve0 goodParams rfl

/-- C9: the reference wattage of the deviation computation is the single
batch-wide constant `(STC_Low + STC_Hi) / 2 = 220`, shared by every module
of the batch; per-module processing never reads the module's own datasheet
`STC` rating — rewriting that field changes nothing. -/
theorem use_watt_shared_constant :
    use_watt = 220 ∧
    ∀ (desoto : DesotoFn) (solve : SolveFn) (m : RawModule) (v : Value),
      process_module desoto solve (setSTCValue m v) = process_module desoto solve m := by
  refine ⟨by norm_num [use_watt, STC_Hi, STC_Low], fun desoto solve m v => ?_⟩
  unfold process_module
  rw [calculate_result_setSTC]

/-- The listing loop completes when it stays within the delivered objects
and every delivered record carries a string `Name`. -/
theorem listing_loop_ok (objects : List RawModule)
    (hnames : ∀ obj ∈ objects, hasStrName obj = true) :
    ∀ (n i : ℕ), i + n ≤ objects.length → listing_loop objects i n = .ok () := by
  intro n
  induction n with
  | zero => intro i _; rfl
  | succ n ih =>
    intro i hle
    have hi : i < objects.length := by omega
    have hobj : objects[i]? = some objects[i] := List.getElem?_eq_getElem hi
    have hmem : objects[i] ∈ objects := List.getElem_mem hi
    cases hlk : (objects[i]).lookup "Name" with
    | none =>
      have hn := hnames _ hmem
      simp [hasStrName, hlk] at hn
    | some v =>
      cases v with
      | num q =>
        have hn := hnames _ hmem
        simp [hasStrName, hlk] at hn
      | str s =>
        simp only [listing_loop, hobj, hlk]
        exact ih (i + 1) (by omega)

/-- When every delivered record carries a string `Name` but the iteration
count exceeds the number of delivered objects, the listing loop raises the
`IndexError` at index `objects.length`, the first position past the
end. -/
theorem listing_loop_overrun (objects : List RawModule)
    (hnames : ∀ obj ∈ objects, hasStrName obj = true) :
    ∀ (n i : ℕ), i ≤ objects.length → objects.length < i + n →
      listing_loop objects i n = .error (.indexError objects.length) := by
  intro n
  induction n with
  | zero => intro i h1 h2; omega
  | succ n ih =>
    intro i h1 h2
    by_cases hi : i < objects.length
    · have hobj : objects[i]? = some objects[i] := List.getElem?_eq_getElem hi
      have hmem : objects[i] ∈ objects := List.getElem_mem hi
      cases hlk : (objects[i]).lookup "Name" with
      | none =>
        have hn := hnames _ hmem
        simp [hasStrName, hlk] at hn
      | some v =>
        cases v with
        | num q =>
          have hn := hnames _ hmem
          simp [hasStrName, hlk] at hn
        | str s =>
          simp only [listing_loop, hobj, hlk]
          exact ih (i + 1) (by omega) (by omega)
    · have hieq : i = objects.length := by omega
      have hobj : objects[i]? = none := List.getElem?_eq_none (by omega)
      simp only [listing_loop, hobj]
      rw [hieq]

/-- C10: under the catalog pagination contract (at most `limits` of the
`total_count` matches are delivered) and the catalog guarantee that every
delivered record carries a string `Name`, a response whose `total_count`
exceeds the request limit makes the listing loop index `objects` at
position `objects.length`, past its end; when `0 < total_count ≤ limits`
the loop is safe and the fetch returns the objects. -/
theorem get_cecmodules_objects_bound (resp : CatalogResponse) (limits : ℕ)
    (hpag : resp.objects.length = min resp.catMeta.total_count limits)
    (hnames : ∀ obj ∈ resp.objects, hasStrName obj = true) :
    (limits < resp.catMeta.total_count →
      get_cecmodules resp limits = .error (.indexError resp.objects.length)) ∧
    (0 < resp.catMeta.total_count → resp.catMeta.total_count ≤ limits →
      get_cecmodules resp limits = .ok resp.objects) := by
  constructor
  · intro h
    have h0 : resp.catMeta.total_count ≠ 0 := by omega
    have hlen : resp.objects.length = limits := by
      rw [hpag]
      exact Nat.min_eq_right (Nat.le_of_lt h)
    have hloop : listing_loop resp.objects 0 resp.catMeta.total_count =
        .error (.indexError resp.objects.length) :=
      listing_loop_overrun resp.objects hnames _ 0 (by omega) (by omega)
    simp [get_cecmodules, h0, hloop]
  · intro h1 h2
    have h0 : resp.catMeta.total_count ≠ 0 := by omega
    have hlen : resp.objects.length = resp.catMeta.total_count := by
      rw [hpag]
      exact Nat.min_eq_left h2
    have hloop : listing_loop resp.objects 0 resp.catMeta.total_count = .ok () :=
      listing_loop_ok resp.objects hnames _ 0 (by omega)
    simp [get_cecmodules, h0, hloop]

/-- Witness for C10 at concrete responses: three matches delivered as two
objects under limit 2 raise the index error, one match under limit 2 is
returned whole. -/
theorem get_cecmodules_objects_bound_witness :
    get_cecmodules respOver 2 = .error (.indexError 2) ∧
    get_cecmodules respOk 2 = .ok respOk.objects :=
  ⟨(get_cecmodules_objects_bound respOver 2 rfl (by decide)).1 (by decide),
   (get_cecmodules_objects_bound respOk 2 rfl (by decide)).2 (by decide) (by decide)⟩

end SkModel
